import Mathlib

/-!
Verification of the Bluesky MCP server (src/bluesky/index.ts): a shallow
embedding of the session authenticator, the `BlueskyClient` HTTP request
builders, the static tool descriptors, and the `CallToolRequest` dispatch
handler, together with theorems settling the specification claims about
defaulting, clamping, and the error-envelope contract.
-/

/-- JSON values as produced and consumed by the server.  Models the JavaScript
values that flow through `JSON.stringify` / `response.json()`. -/
inductive Json where
  | str (s : String)
  | num (n : Int)
  | bool (b : Bool)
  | null
  | arr (xs : List Json)
  | obj (fields : List (String × Json))

/-- Escaping of a single character inside a JSON string literal, as
`JSON.stringify` performs it for the characters that occur in this system. -/
def escapeChar (ch : Char) : String :=
  if ch = '"' then "\\\""
  else if ch = '\\' then "\\\\"
  else if ch = '\n' then "\\n"
  else if ch = '\t' then "\\t"
  else if ch = '\r' then "\\r"
  else String.singleton ch

/-- Escaping of a full string for inclusion in JSON output. -/
def escapeString (s : String) : String :=
  String.join (s.data.map escapeChar)

/-- A JSON-quoted string: surrounding double quotes plus escaping. -/
def quoteJson (s : String) : String :=
  "\"" ++ escapeString s ++ "\""

mutual

/-- Compact JSON serialization: models `JSON.stringify(v)` with no indent
argument, as used for the error payload of the dispatch handler. -/
def Json.stringify : Json → String
  | .str s => quoteJson s
  | .num n => toString n
  | .bool b => cond b "true" "false"
  | .null => "null"
  | .arr xs => "[" ++ stringifyArr xs ++ "]"
  | .obj fs => "\x7b" ++ stringifyObj fs ++ "\x7d"

/-- Comma-joined compact serialization of JSON array elements. -/
def stringifyArr : List Json → String
  | [] => ""
  | [x] => Json.stringify x
  | x :: y :: xs => Json.stringify x ++ "," ++ stringifyArr (y :: xs)

/-- Comma-joined compact serialization of JSON object fields. -/
def stringifyObj : List (String × Json) → String
  | [] => ""
  | [(k, v)] => quoteJson k ++ ":" ++ Json.stringify v
  | (k, v) :: g :: fs => quoteJson k ++ ":" ++ Json.stringify v ++ "," ++ stringifyObj (g :: fs)

end

/-- A run of space characters, for pretty-printed indentation. -/
def spaces : Nat → String
  | 0 => ""
  | n + 1 => " " ++ spaces n

mutual

/-- Pretty JSON serialization at a given indentation level: models
`JSON.stringify(v, null, 2)`, used for the success payload of the handler. -/
def Json.prettyAux : Json → Nat → String
  | .str s, _ => quoteJson s
  | .num n, _ => toString n
  | .bool b, _ => cond b "true" "false"
  | .null, _ => "null"
  | .arr [], _ => "[]"
  | .arr (x :: xs), ind =>
      "[\n" ++ prettyItems (x :: xs) (ind + 2) ++ "\n" ++ spaces ind ++ "]"
  | .obj [], _ => "\x7b\x7d"
  | .obj (f :: fs), ind =>
      "\x7b\n" ++ prettyFields (f :: fs) (ind + 2) ++ "\n" ++ spaces ind ++ "\x7d"

/-- Pretty serialization of the elements of a non-empty JSON array. -/
def prettyItems : List Json → Nat → String
  | [], _ => ""
  | [x], ind => spaces ind ++ Json.prettyAux x ind
  | x :: y :: xs, ind => spaces ind ++ Json.prettyAux x ind ++ ",\n" ++ prettyItems (y :: xs) ind

/-- Pretty serialization of the fields of a non-empty JSON object. -/
def prettyFields : List (String × Json) → Nat → String
  | [], _ => ""
  | [(k, v)], ind => spaces ind ++ quoteJson k ++ ": " ++ Json.prettyAux v ind
  | (k, v) :: g :: fs, ind =>
      spaces ind ++ quoteJson k ++ ": " ++ Json.prettyAux v ind ++ ",\n" ++ prettyFields (g :: fs) ind

end

/-- Pretty JSON serialization at top level: `JSON.stringify(v, null, 2)`. -/
def Json.pretty (j : Json) : String :=
  Json.prettyAux j 0

/-- JavaScript `v || d` for a possibly-undefined number: `undefined` and `0`
are falsy, so both fall back to the default. -/
def jsOrNum (v : Option Int) (d : Int) : Int :=
  match v with
  | some n => if n = 0 then d else n
  | none => d

/-- JavaScript `v || d` for a possibly-undefined string: `undefined` and the
empty string are falsy, so both fall back to the default. -/
def jsOrStr (v : Option String) (d : String) : String :=
  match v with
  | some s => if s = "" then d else s
  | none => d

/-- JavaScript truthiness of a possibly-undefined string, as used in the
guards `if (query.since) ...` and `data.error` checks. -/
def jsTruthyStr (v : Option String) : Bool :=
  match v with
  | some s => s ≠ ""
  | none => false

/-- A conditionally appended query parameter: models
`if (x) params.append(name, x)`, which skips both `undefined` and `""`. -/
def optQueryParam (name : String) (v : Option String) : List (String × String) :=
  match v with
  | some s => if s = "" then [] else [(name, s)]
  | none => []

/-- A string-valued field of a `JSON.stringify`d object literal: a field whose
value is `undefined` is omitted from the serialized object. -/
def jsonFieldStr (name : String) (v : Option String) : List (String × Json) :=
  match v with
  | some s => [(name, Json.str s)]
  | none => []

/-- A JSON-valued field of a `JSON.stringify`d object literal, omitted when
the value is `undefined`. -/
def jsonFieldJson (name : String) (v : Option Json) : List (String × Json) :=
  match v with
  | some j => [(name, j)]
  | none => []

/-- An outbound HTTP request to the remote service, as assembled by a
`BlueskyClient` method: HTTP method, host, endpoint path under `/xrpc/`,
query parameters in append order, request headers, and optional JSON body. -/
structure OutboundRequest where
  method : String
  host : String
  path : String
  params : List (String × String)
  headers : List (String × String)
  body : Option Json

/-- The Bluesky client: holds the bearer credential and the PDS host, exactly
the state of the `BlueskyClient` class. -/
structure BlueskyClient where
  accessJwt : String
  PDSHost : String

/-- The headers attached to every client request, as set in the
`BlueskyClient` constructor. -/
def BlueskyClient.headers (c : BlueskyClient) : List (String × String) :=
  [("Authorization", "Bearer " ++ c.accessJwt), ("Content-Type", "application/json")]

/-- Request built by `BlueskyClient.getUserProfile`: a GET to
`app.bsky.actor.getProfile?actor=handle`.  The source interpolates the handle
into the URL; an `undefined` handle would be interpolated as the text
`undefined`, which callers model by passing that string. -/
def BlueskyClient.getUserProfile (c : BlueskyClient) (handle : String) : OutboundRequest :=
  { method := "GET", host := c.PDSHost, path := "app.bsky.actor.getProfile",
    params := [("actor", handle)], headers := c.headers, body := none }

/-- Request built by `BlueskyClient.getUserPosts(handle, limit = 10)`: a GET
to `app.bsky.feed.getAuthorFeed` with `limit` clamped by `Math.min(limit,
100)`.  The `Option Int` argument models the possibly-undefined JavaScript
argument; the default parameter value 10 applies when it is undefined. -/
def BlueskyClient.getUserPosts (c : BlueskyClient) (handle : String) (limit : Option Int) :
    OutboundRequest :=
  let limit := limit.getD 10
  { method := "GET", host := c.PDSHost, path := "app.bsky.feed.getAuthorFeed",
    params := [("actor", handle), ("limit", toString (min limit 100))],
    headers := c.headers, body := none }

/-- Request built by `BlueskyClient.createRecord(repo, collection, record,
rkey?, validate = true, swapCommit?)`: a POST to `com.atproto.repo.createRecord`
whose body is the `JSON.stringify`d object literal; fields holding `undefined`
are omitted by the serializer. -/
def BlueskyClient.createRecord (c : BlueskyClient) (repo collection : Option String)
    (record : Option Json) (rkey : Option String) (validate : Option Bool)
    (swapCommit : Option String) : OutboundRequest :=
  let validate := validate.getD true
  { method := "POST", host := c.PDSHost, path := "com.atproto.repo.createRecord",
    params := [], headers := c.headers,
    body := some (Json.obj
      (jsonFieldStr "repo" repo ++ jsonFieldStr "collection" collection ++
       jsonFieldJson "record" record ++ jsonFieldStr "rkey" rkey ++
       [("validate", Json.bool validate)] ++ jsonFieldStr "swapCommit" swapCommit)) }

/-- Request built by `BlueskyClient.getTimeline(algorithm?, limit = 50,
cursor?)`: a GET to `app.bsky.feed.getTimeline`; `algorithm` and `cursor` are
appended only when truthy, `limit` is always appended, clamped to 100. -/
def BlueskyClient.getTimeline (c : BlueskyClient) (algorithm : Option String)
    (limit : Option Int) (cursor : Option String) : OutboundRequest :=
  let limit := limit.getD 50
  { method := "GET", host := c.PDSHost, path := "app.bsky.feed.getTimeline",
    params := optQueryParam "algorithm" algorithm ++
      [("limit", toString (min limit 100))] ++ optQueryParam "cursor" cursor,
    headers := c.headers, body := none }

/-- The argument object of the search-posts operation, mirroring the
`SearchPostsArgs` interface.  Every field is optional because the dispatcher
casts the raw argument object without runtime validation. -/
structure SearchPostsArgs where
  q : Option String := none
  sort : Option String := none
  since : Option String := none
  «until» : Option String := none
  mentions : Option String := none
  author : Option String := none
  lang : Option String := none
  domain : Option String := none
  url : Option String := none
  tag : Option (List String) := none
  limit : Option Int := none
  cursor : Option String := none

/-- Request built by `BlueskyClient.searchPosts(query)`: a GET to
`app.bsky.feed.searchPosts`.  The `URLSearchParams` constructor receives
`q`, `sort: query.sort || "latest"` and `limit: Math.min(query.limit || 25,
100)`; the remaining parameters are appended only when truthy, with `tag`
comma-joined and appended whenever the array is present. -/
def BlueskyClient.searchPosts (c : BlueskyClient) (query : SearchPostsArgs) :
    OutboundRequest :=
  { method := "GET", host := c.PDSHost, path := "app.bsky.feed.searchPosts",
    params :=
      [("q", query.q.getD "undefined"),
       ("sort", jsOrStr query.sort "latest"),
       ("limit", toString (min (jsOrNum query.limit 25) 100))] ++
      optQueryParam "since" query.since ++
      optQueryParam "until" query.«until» ++
      optQueryParam "mentions" query.mentions ++
      optQueryParam "author" query.author ++
      optQueryParam "lang" query.lang ++
      optQueryParam "domain" query.domain ++
      optQueryParam "url" query.url ++
      (match query.tag with
       | some ts => [("tag", String.intercalate "," ts)]
       | none => []) ++
      optQueryParam "cursor" query.cursor,
    headers := c.headers, body := none }

/-- The request issued by `createSession`: a POST to
`com.atproto.server.createSession` with the identifier/password body. -/
def createSessionRequest (PDSHost userHandle password : String) : OutboundRequest :=
  { method := "POST", host := PDSHost, path := "com.atproto.server.createSession",
    params := [], headers := [("Content-Type", "application/json")],
    body := some (Json.obj
      [("identifier", Json.str userHandle), ("password", Json.str password)]) }

/-- The fields of the parsed `createSession` response body that the code
reads: the `error` field and the `accessJwt` field, each possibly absent. -/
structure SessionBody where
  error : Option String
  accessJwt : Option String

/-- The possible outcomes of the `createSession` fetch: the transport itself
rejecting, or an HTTP response with a status flag, a status text, and a body
that either parses as JSON (projected to the fields the code reads) or fails
to parse, in which case `response.json()` rejects with a parse error. -/
inductive SessionOutcome where
  | networkError (msg : String)
  | response (ok : Bool) (statusText : String) (body : Except String SessionBody)

/-- `createSession(PDSHost, userHandle, password)` applied to the outcome of
its fetch.  The code first rejects falsy configuration, then awaits
`response.json()` (propagating its parse error), then fails when
`!response.ok || data.error` with the message built from
`data.error || response.statusText`, and otherwise returns `data.accessJwt`
(which is absent when the body lacks the field, hence the `Option`). -/
def createSession (PDSHost userHandle password : String) (outcome : SessionOutcome) :
    Except String (Option String) :=
  if PDSHost = "" ∨ userHandle = "" ∨ password = "" then
    .error "Missing required environment variables: PDS_HOST, BSKY_HANDLE, or BSKY_PASSWORD."
  else
    match outcome with
    | .networkError m => .error m
    | .response ok st body =>
      match body with
      | .error m => .error m
      | .ok data =>
        if !ok || jsTruthyStr data.error then
          .error ("Failed to authenticate: " ++ jsOrStr data.error st)
        else
          .ok data.accessJwt

/-- The schema of one parameter of a tool descriptor, as declared in the
static `inputSchema.properties` objects. -/
structure ParamSchema where
  type : String
  description : String := ""
  default : Option Json := none
  enum : Option (List String) := none
  items : Option String := none

/-- A static tool descriptor: name, description, parameter schemas in
declaration order, and the list of required parameter names. -/
structure ToolDescriptor where
  name : String
  description : String
  properties : List (String × ParamSchema)
  required : List String := []

/-- The `bluesky_get_user_profile` tool descriptor. -/
def getUserProfileTool : ToolDescriptor :=
  { name := "bluesky_get_user_profile",
    description := "Get detailed profile information for a specific Bluesky user",
    properties := [("handle",
      { type := "string", description := "The handle of the user" })],
    required := ["handle"] }

/-- The `bluesky_get_user_posts` tool descriptor. -/
def getUserPostsTool : ToolDescriptor :=
  { name := "bluesky_get_user_posts",
    description := "Get recent posts from a specific Bluesky user",
    properties :=
      [("handle", { type := "string", description := "The handle of the user" }),
       ("limit",
        { type := "number",
          description := "Number of posts to retrieve (default 10, max 100)",
          default := some (Json.num 10) })],
    required := ["handle"] }

/-- The `bluesky_create_record` tool descriptor. -/
def createRecordTool : ToolDescriptor :=
  { name := "bluesky_create_record",
    description := "Create a new record in the specified Bluesky repo and collection",
    properties :=
      [("repo", { type := "string", description := "The handle or DID of the repo" }),
       ("collection", { type := "string", description := "The NSID of the record collection" }),
       ("record", { type := "object", description := "The data for the new record" }),
       ("rkey", { type := "string", description := "The Record Key (optional)" }),
       ("validate",
        { type := "boolean",
          description := "Set to false to skip schema validation (default: true)" }),
       ("swapCommit",
        { type := "string", description := "The CID of the previous commit (optional)" })],
    required := ["repo", "collection", "record"] }

/-- The `bluesky_get_timeline` tool descriptor. -/
def getTimelineTool : ToolDescriptor :=
  { name := "bluesky_get_timeline",
    description := "Get a view of the requesting accounts home timeline.",
    properties :=
      [("algorithm",
        { type := "string", description := "Variant algorithm for timeline." }),
       ("limit",
        { type := "number",
          description := "Maximum number of items to retrieve (default 50, max 100).",
          default := some (Json.num 50) }),
       ("cursor",
        { type := "string", description := "Pagination cursor for next page of results." })] }

/-- The `bluesky_search_posts` tool descriptor.  Its `limit` parameter is
documented as defaulting to 10 and declares `default: 10`. -/
def searchPostsTool : ToolDescriptor :=
  { name := "bluesky_search_posts",
    description := "Find posts matching search criteria.",
    properties :=
      [("q", { type := "string", description := "Search query string." }),
       ("sort",
        { type := "string", enum := some ["top", "latest"],
          description := "Ranking order of results (default: latest).",
          default := some (Json.str "latest") }),
       ("since",
        { type := "string",
          description := "Filter results for posts after the specified datetime." }),
       ("until",
        { type := "string",
          description := "Filter results for posts before the specified datetime." }),
       ("mentions",
        { type := "string", description := "Filter posts mentioning the given account." }),
       ("author",
        { type := "string", description := "Filter posts by the given account." }),
       ("lang", { type := "string", description := "Filter posts by language." }),
       ("domain",
        { type := "string", description := "Filter posts linking to the given domain." }),
       ("url", { type := "string", description := "Filter posts pointing to this URL." }),
       ("tag", { type := "array", items := some "string",
                 description := "Filter posts with the given tags (AND matching)." }),
       ("limit",
        { type := "number",
          description := "Maximum number of items to retrieve (default 10, max 100).",
          default := some (Json.num 10) }),
       ("cursor",
        { type := "string", description := "Pagination cursor for next page of results." })],
    required := ["q"] }

/-- The fixed list of tool descriptors returned by the ListTools handler. -/
def listedTools : List ToolDescriptor :=
  [getUserProfileTool, getUserPostsTool, createRecordTool, getTimelineTool, searchPostsTool]

/-- The five tool names recognized by the CallToolRequest handler switch. -/
def supportedToolNames : List String :=
  ["bluesky_get_user_profile", "bluesky_get_user_posts", "bluesky_create_record",
   "bluesky_get_timeline", "bluesky_search_posts"]

/-- The raw tool-call argument object.  The handler casts this object to the
per-tool interface without validation, so every field any tool reads is
modeled as optional; absent fields are JavaScript `undefined`. -/
structure ToolArgs where
  handle : Option String := none
  limit : Option Int := none
  repo : Option String := none
  collection : Option String := none
  record : Option Json := none
  rkey : Option String := none
  validate : Option Bool := none
  swapCommit : Option String := none
  algorithm : Option String := none
  q : Option String := none
  sort : Option String := none
  since : Option String := none
  «until» : Option String := none
  mentions : Option String := none
  author : Option String := none
  lang : Option String := none
  domain : Option String := none
  url : Option String := none
  tag : Option (List String) := none
  cursor : Option String := none

/-- The cast `request.params.arguments as unknown as SearchPostsArgs`: the
same object viewed through the search-posts interface, so each field is the
identity projection. -/
def toSearchPostsArgs (args : ToolArgs) : SearchPostsArgs :=
  { q := args.q, sort := args.sort, since := args.since, «until» := args.«until»,
    mentions := args.mentions, author := args.author, lang := args.lang,
    domain := args.domain, url := args.url, tag := args.tag,
    limit := args.limit, cursor := args.cursor }

/-- An inbound tool-call request: the tool name and the possibly absent
argument object of `request.params`. -/
structure ToolCallRequest where
  name : String
  arguments : Option ToolArgs

/-- The outcome of one outbound fetch as the client code observes it: the
transport rejecting, or a response with its `ok` flag, status text, and a
body that parses as JSON or rejects with a parse error. -/
inductive FetchOutcome where
  | networkError (msg : String)
  | response (ok : Bool) (statusText : String) (body : Except String Json)

/-- What a client method returns for a given fetch outcome.  Every
`BlueskyClient` method ends in `return response.json()` without inspecting
`response.ok`, so a parsed body is returned as a success regardless of the
HTTP status, and only a transport rejection or a JSON parse failure throws. -/
def runFetch (o : FetchOutcome) : Except String Json :=
  match o with
  | .networkError msg => .error msg
  | .response _ _ body => body

/-- The outbound request each recognized tool name produces from the argument
object, mirroring the switch of the CallToolRequest handler: the
get-user-posts case passes `args.limit || 10` to the client, the
create-record case passes `args.validate ?? true`, the timeline and search
cases forward the optional arguments unchanged. -/
def toolRequest (c : BlueskyClient) (name : String) (args : ToolArgs) :
    Option OutboundRequest :=
  if name = "bluesky_get_user_profile" then
    some (c.getUserProfile (args.handle.getD "undefined"))
  else if name = "bluesky_get_user_posts" then
    some (c.getUserPosts (args.handle.getD "undefined") (some (jsOrNum args.limit 10)))
  else if name = "bluesky_create_record" then
    some (c.createRecord args.repo args.collection args.record args.rkey
      (some (args.validate.getD true)) args.swapCommit)
  else if name = "bluesky_get_timeline" then
    some (c.getTimeline args.algorithm args.limit args.cursor)
  else if name = "bluesky_search_posts" then
    some (c.searchPosts (toSearchPostsArgs args))
  else
    none

/-- The body of the CallToolRequest handler's `try` block: throw
`"No arguments provided"` when the arguments are absent, throw
`"Unknown tool: <name>"` when the name is unrecognized, and otherwise issue
the tool's outbound request and return the value of `response.json()`. -/
def tryCallTool (net : OutboundRequest → FetchOutcome) (c : BlueskyClient)
    (req : ToolCallRequest) : Except String Json :=
  match req.arguments with
  | none => .error "No arguments provided"
  | some args =>
    match toolRequest c req.name args with
    | some r => runFetch (net r)
    | none => .error ("Unknown tool: " ++ req.name)

/-- One item of the response envelope: a `type` tag and the payload text. -/
structure ContentItem where
  type : String
  text : String

/-- The uniform response envelope returned by the handler. -/
structure Envelope where
  content : List ContentItem

/-- The success envelope: the remote JSON pretty-printed with
`JSON.stringify(response, null, 2)`. -/
def successEnvelope (j : Json) : Envelope :=
  { content := [{ type := "text", text := Json.pretty j }] }

/-- The error envelope produced by the handler's catch block:
`JSON.stringify(\x7b error: message \x7d)` as the payload text. -/
def errorEnvelope (m : String) : Envelope :=
  { content := [{ type := "text", text := Json.stringify (Json.obj [("error", Json.str m)]) }] }

/-- The complete CallToolRequest handler: run the `try` block and convert any
thrown error into the error envelope. -/
def handleCallTool (net : OutboundRequest → FetchOutcome) (c : BlueskyClient)
    (req : ToolCallRequest) : Envelope :=
  match tryCallTool net c req with
  | .ok j => successEnvelope j
  | .error m => errorEnvelope m

theorem string_data_append (s t : String) : (s ++ t).data = s.data ++ t.data := by
  cases s
  cases t
  rfl

/-- The compact serialization of the error payload object starts with the
characters of a JSON object whose first key is `error`, for every message. -/
theorem errorText_data (m : String) :
    (Json.stringify (Json.obj [("error", Json.str m)])).data
      = '\x7b' :: '"' :: 'e' :: 'r' :: 'r' :: 'o' :: 'r' :: '"' :: ':' :: '"' ::
        ((escapeString m).data ++ ['"', '\x7d']) := by
  show (("\x7b" ++ (quoteJson "error" ++ ":" ++ quoteJson m) ++ "\x7d")).data = _
  have h : (escapeString "error").data = ['e', 'r', 'r', 'o', 'r'] := rfl
  simp [quoteJson, string_data_append, h]

/-- The `limit` query parameter sent by `getUserPosts`. -/
theorem getUserPosts_limit_param (c : BlueskyClient) (h : String) (l : Option Int) :
    ((c.getUserPosts h l).params).lookup "limit" = some (toString (min (l.getD 10) 100)) := by
  simp [BlueskyClient.getUserPosts, List.lookup]

/-- The `limit` query parameter sent by `getTimeline`. -/
theorem getTimeline_limit_param (c : BlueskyClient) (alg : Option String)
    (l : Option Int) (cur : Option String) :
    ((c.getTimeline alg l cur).params).lookup "limit"
      = some (toString (min (l.getD 50) 100)) := by
  cases alg with
  | none => simp [BlueskyClient.getTimeline, optQueryParam, List.lookup]
  | some s =>
    by_cases hs : s = "" <;>
      simp [BlueskyClient.getTimeline, optQueryParam, hs, List.lookup]

/-- The `limit` query parameter sent by `searchPosts`. -/
theorem searchPosts_limit_param (c : BlueskyClient) (query : SearchPostsArgs) :
    ((c.searchPosts query).params).lookup "limit"
      = some (toString (min (jsOrNum query.limit 25) 100)) := by
  simp [BlueskyClient.searchPosts, List.lookup]

/-- The `validate` field of the body sent by `createRecord`. -/
theorem createRecord_validate_field (c : BlueskyClient) (repo collection : Option String)
    (record : Option Json) (rkey : Option String) (validate : Option Bool)
    (swapCommit : Option String) :
    ∃ fields, (c.createRecord repo collection record rkey validate swapCommit).body
        = some (Json.obj fields) ∧
      fields.lookup "validate" = some (Json.bool (validate.getD true)) := by
  refine ⟨_, rfl, ?_⟩
  cases repo <;> cases collection <;> cases record <;> cases rkey <;>
    simp [jsonFieldStr, jsonFieldJson, List.lookup]

/-- A demonstration client used to instantiate the theorems. -/
def clientDemo : BlueskyClient :=
  { accessJwt := "jwt123", PDSHost := "https://bsky.social" }

/-- A get-profile tool call with a handle argument. -/
def reqProfile : ToolCallRequest :=
  { name := "bluesky_get_user_profile", arguments := some { handle := some "alice.test" } }

/-- A tool call whose `arguments` field is absent. -/
def reqNoArgs : ToolCallRequest :=
  { name := "bluesky_get_user_profile", arguments := none }

/-- A network layer on which every fetch is rejected by the transport. -/
def netFail : OutboundRequest → FetchOutcome :=
  fun _ => .networkError "request to https://bsky.social failed, reason: getaddrinfo ENOTFOUND"

/-- A JSON error body as the remote service returns it alongside a
non-success HTTP status. -/
def remoteErrorBody : Json :=
  Json.obj [("error", Json.str "AuthRequired")]

/-- A network layer on which every fetch yields a non-success HTTP status
whose body still parses as JSON. -/
def netNotOk : OutboundRequest → FetchOutcome :=
  fun _ => .response false "Unauthorized" (.ok remoteErrorBody)

/-- Claim C1: the search-posts tool descriptor documents and declares a
`limit` default of 10, but a search-posts call that omits `limit` produces an
outbound request whose `limit` query parameter is 25 (`query.limit || 25`),
contradicting the descriptor. -/
theorem searchPosts_omitted_limit_sends_25 (c : BlueskyClient) :
    ((searchPostsTool.properties.lookup "limit").map ParamSchema.default
       = some (some (Json.num 10))) ∧
    (c.searchPosts { q := some "test" }).params.lookup "limit" = some "25" := by
  constructor
  · rfl
  · rfl

/-- Claim C2 counterexample: on a get-profile call where the remote service
answers with a non-success HTTP status and a JSON error body, the dispatcher
returns the success envelope wrapping that body, and this envelope is not the
error envelope of any message. -/
theorem nonsuccess_status_yields_success_envelope :
    handleCallTool netNotOk clientDemo reqProfile = successEnvelope remoteErrorBody ∧
    ∀ m, handleCallTool netNotOk clientDemo reqProfile ≠ errorEnvelope m := by
  constructor
  · rfl
  · intro m h
    have h1 : Json.pretty remoteErrorBody = Json.stringify (Json.obj [("error", Json.str m)]) := by
      have h0 : successEnvelope remoteErrorBody = errorEnvelope m := by
        rw [show successEnvelope remoteErrorBody = handleCallTool netNotOk clientDemo reqProfile from rfl]
        exact h
      simpa [successEnvelope, errorEnvelope, Envelope.mk.injEq, ContentItem.mk.injEq]
        using congrArg Envelope.content h0
    have h2 := congrArg String.data h1
    rw [errorText_data] at h2
    have h3 : (Json.pretty remoteErrorBody).data
        = '\x7b' :: '\n' :: ' ' :: ' ' :: '"' :: 'e' :: 'r' :: 'r' :: 'o' :: 'r' :: '"' ::
          ':' :: ' ' :: '"' :: 'A' :: 'u' :: 't' :: 'h' :: 'R' :: 'e' :: 'q' :: 'u' ::
          'i' :: 'r' :: 'e' :: 'd' :: '"' :: '\n' :: '\x7d' :: [] := rfl
    rw [h3] at h2
    injection h2 with h4 h5
    injection h5 with h6 h7
    exact absurd h6 (by decide)

/-- Claim C2 (amended): for every tool call that reaches a client operation,
the dispatcher returns the error envelope with the thrown message exactly
when the remote call throws (transport rejection or JSON parse failure), and
returns the success envelope wrapping the parsed body otherwise — including
when the HTTP status is non-success. -/
theorem client_call_outcome_envelope (net : OutboundRequest → FetchOutcome)
    (c : BlueskyClient) (req : ToolCallRequest) (args : ToolArgs) (r : OutboundRequest)
    (hargs : req.arguments = some args) (hr : toolRequest c req.name args = some r) :
    handleCallTool net c req =
      match runFetch (net r) with
      | .ok j => successEnvelope j
      | .error m => errorEnvelope m := by
  simp only [handleCallTool, tryCallTool, hargs, hr]

/-- Witness for the amended claim C2: a transport rejection on a get-profile
call is delivered as the error envelope with the rejection message. -/
theorem client_call_outcome_envelope_witness :
    handleCallTool netFail clientDemo reqProfile
      = errorEnvelope "request to https://bsky.social failed, reason: getaddrinfo ENOTFOUND" := by
  have h := client_call_outcome_envelope netFail clientDemo reqProfile
    { handle := some "alice.test" } (clientDemo.getUserProfile "alice.test") rfl rfl
  simpa using h

/-- Claim C3: for every network layer, client, and tool-call request, the
handler returns a well-formed envelope holding a single text item, and
whenever the body of the `try` block throws a message the envelope is
exactly the error envelope carrying that message as `JSON.stringify` of the
object with the single `error` field.  Totality is by construction: the
handler is a total function of its inputs. -/
theorem dispatch_total_envelope (net : OutboundRequest → FetchOutcome)
    (c : BlueskyClient) (req : ToolCallRequest) :
    (∃ t, handleCallTool net c req = { content := [{ type := "text", text := t }] }) ∧
    (∀ m, tryCallTool net c req = .error m → handleCallTool net c req = errorEnvelope m) := by
  constructor
  · cases h : tryCallTool net c req with
    | ok j =>
      exact ⟨Json.pretty j, by simp [handleCallTool, h, successEnvelope]⟩
    | error m =>
      exact ⟨Json.stringify (Json.obj [("error", Json.str m)]),
        by simp [handleCallTool, h, errorEnvelope]⟩
  · intro m hm
    simp [handleCallTool, hm]

/-- Witness for claim C3: the argument-less request is answered with the
error envelope for the message the handler throws there. -/
theorem dispatch_total_envelope_witness :
    handleCallTool netFail clientDemo reqNoArgs = errorEnvelope "No arguments provided" :=
  (dispatch_total_envelope netFail clientDemo reqNoArgs).2 "No arguments provided" rfl

/-- Claim C4: for each of get-author-posts, get-timeline, and search-posts, a
supplied `limit` of at least 100 (in particular 1000) produces an outbound
request whose `limit` query parameter is the string 100. -/
theorem limit_above_100_clamped (c : BlueskyClient) (args : ToolArgs) (l : Int)
    (hl : args.limit = some l) (h100 : 100 ≤ l) :
    (∃ r, toolRequest c "bluesky_get_user_posts" args = some r ∧
       r.params.lookup "limit" = some "100") ∧
    (∃ r, toolRequest c "bluesky_get_timeline" args = some r ∧
       r.params.lookup "limit" = some "100") ∧
    (∃ r, toolRequest c "bluesky_search_posts" args = some r ∧
       r.params.lookup "limit" = some "100") := by
  have hne : l ≠ 0 := by omega
  have hmin : min l 100 = (100 : Int) := min_eq_right h100
  refine ⟨⟨_, rfl, ?_⟩, ⟨_, rfl, ?_⟩, ⟨_, rfl, ?_⟩⟩
  · rw [getUserPosts_limit_param]
    simp [hl, jsOrNum, hne, hmin]
    rfl
  · rw [getTimeline_limit_param]
    simp [hl, hmin]
    rfl
  · rw [searchPosts_limit_param]
    simp [toSearchPostsArgs, hl, jsOrNum, hne, hmin]
    rfl

/-- Witness for claim C4: a limit of 1000 is clamped to 100 on all three
operations. -/
theorem limit_above_100_clamped_witness :
    (∃ r, toolRequest clientDemo "bluesky_get_user_posts" { limit := some 1000 } = some r ∧
       r.params.lookup "limit" = some "100") ∧
    (∃ r, toolRequest clientDemo "bluesky_get_timeline" { limit := some 1000 } = some r ∧
       r.params.lookup "limit" = some "100") ∧
    (∃ r, toolRequest clientDemo "bluesky_search_posts" { limit := some 1000 } = some r ∧
       r.params.lookup "limit" = some "100") :=
  limit_above_100_clamped clientDemo { limit := some 1000 } 1000 rfl (by norm_num)

/-- Claim C5: with `limit` omitted, get-author-posts sends `limit = 10` and
get-timeline sends `limit = 50`. -/
theorem omitted_limit_defaults (c : BlueskyClient) (args : ToolArgs)
    (h : args.limit = none) :
    (∃ r, toolRequest c "bluesky_get_user_posts" args = some r ∧
       r.params.lookup "limit" = some "10") ∧
    (∃ r, toolRequest c "bluesky_get_timeline" args = some r ∧
       r.params.lookup "limit" = some "50") := by
  refine ⟨⟨_, rfl, ?_⟩, ⟨_, rfl, ?_⟩⟩
  · rw [getUserPosts_limit_param, h]
    rfl
  · rw [getTimeline_limit_param, h]
    rfl

/-- Witness for claim C5: the empty argument object produces limits 10 and 50
on the two operations. -/
theorem omitted_limit_defaults_witness :
    (∃ r, toolRequest clientDemo "bluesky_get_user_posts" {} = some r ∧
       r.params.lookup "limit" = some "10") ∧
    (∃ r, toolRequest clientDemo "bluesky_get_timeline" {} = some r ∧
       r.params.lookup "limit" = some "50") :=
  omitted_limit_defaults clientDemo {} rfl

/-- Claim C6: a create-record call whose arguments omit `validate` produces
an outbound POST whose serialized body carries `validate = true`. -/
theorem createRecord_validate_defaults_true (c : BlueskyClient) (args : ToolArgs)
    (h : args.validate = none) :
    ∃ r, toolRequest c "bluesky_create_record" args = some r ∧ r.method = "POST" ∧
      ∃ fields, r.body = some (Json.obj fields) ∧
        fields.lookup "validate" = some (Json.bool true) := by
  refine ⟨_, rfl, rfl, ?_⟩
  obtain ⟨fields, hb, hf⟩ := createRecord_validate_field c args.repo args.collection
    args.record args.rkey (some (args.validate.getD true)) args.swapCommit
  refine ⟨fields, hb, ?_⟩
  rw [hf, h]
  rfl

/-- Witness for claim C6: a create-record argument object with `validate`
absent yields a body whose `validate` field is `true`. -/
theorem createRecord_validate_defaults_true_witness :
    ∃ r, toolRequest clientDemo "bluesky_create_record"
        { repo := some "alice.test", collection := some "app.bsky.feed.post",
          record := some (Json.obj [("text", Json.str "hello")]) } = some r ∧
      r.method = "POST" ∧
      ∃ fields, r.body = some (Json.obj fields) ∧
        fields.lookup "validate" = some (Json.bool true) :=
  createRecord_validate_defaults_true clientDemo
    { repo := some "alice.test", collection := some "app.bsky.feed.post",
      record := some (Json.obj [("text", Json.str "hello")]) } rfl

/-- Claim C7: a tool-call request whose `arguments` field is absent is
answered, for every tool name, with the error envelope whose payload is the
JSON object carrying the message `No arguments provided`. -/
theorem no_arguments_error_envelope (net : OutboundRequest → FetchOutcome)
    (c : BlueskyClient) (req : ToolCallRequest) (h : req.arguments = none) :
    handleCallTool net c req = errorEnvelope "No arguments provided" ∧
    handleCallTool net c req =
      Envelope.mk [ContentItem.mk "text" "\x7b\"error\":\"No arguments provided\"\x7d"] := by
  have h1 : tryCallTool net c req = .error "No arguments provided" := by
    unfold tryCallTool
    rw [h]
  have h2 : handleCallTool net c req = errorEnvelope "No arguments provided" := by
    simp [handleCallTool, h1]
  exact ⟨h2, by rw [h2]; rfl⟩

/-- Witness for claim C7: the concrete argument-less request is answered with
the concrete error payload text. -/
theorem no_arguments_error_envelope_witness :
    handleCallTool netNotOk clientDemo { name := "bluesky_unheard_of", arguments := none }
      = errorEnvelope "No arguments provided" :=
  (no_arguments_error_envelope netNotOk clientDemo
    { name := "bluesky_unheard_of", arguments := none } rfl).1

/-- Claim C8: a tool-call request with arguments present whose name is not
one of the five supported tool names is answered with the error envelope
carrying `Unknown tool: <name>`. -/
theorem unknown_tool_error_envelope (net : OutboundRequest → FetchOutcome)
    (c : BlueskyClient) (req : ToolCallRequest) (args : ToolArgs)
    (hargs : req.arguments = some args) (hname : req.name ∉ supportedToolNames) :
    handleCallTool net c req = errorEnvelope ("Unknown tool: " ++ req.name) := by
  simp only [supportedToolNames, List.mem_cons, List.not_mem_nil, or_false, not_or] at hname
  obtain ⟨h1, h2, h3, h4, h5⟩ := hname
  have ht : tryCallTool net c req = .error ("Unknown tool: " ++ req.name) := by
    simp only [tryCallTool, hargs, toolRequest, if_neg h1, if_neg h2, if_neg h3,
      if_neg h4, if_neg h5]
  simp [handleCallTool, ht]

/-- Witness for claim C8: an unrecognized tool name is echoed in the error
envelope. -/
theorem unknown_tool_error_envelope_witness :
    handleCallTool netFail clientDemo
        { name := "bluesky_delete_record", arguments := some {} }
      = errorEnvelope "Unknown tool: bluesky_delete_record" := by
  have h := unknown_tool_error_envelope netFail clientDemo
    { name := "bluesky_delete_record", arguments := some {} } {} rfl (by decide)
  simpa using h

/-- Claim C9 counterexample: a successful HTTP response whose JSON body
carries an `error` field holding the empty string does not fail — the guard
`data.error` is a truthiness test, so the empty string passes it — and
`createSession` returns the access credential instead. -/
theorem createSession_empty_error_field_succeeds :
    (SessionBody.mk (some "") (some "jwt123")).error.isSome = true ∧
    createSession "https://bsky.social" "alice.test" "hunter2"
        (SessionOutcome.response true "OK" (.ok (SessionBody.mk (some "") (some "jwt123"))))
      = .ok (some "jwt123") := by
  constructor
  · rfl
  · rfl

/-- Claim C9 (amended): with non-empty configuration and a response whose
body parses, `createSession` fails exactly when the response is not
successful or the body's `error` field is present and non-empty (JavaScript
truthiness), with the message `Failed to authenticate: ` followed by the
server error text when truthy and the HTTP status text otherwise; in every
other case it returns the `accessJwt` field of the body. -/
theorem createSession_spec (host u p : String) (ok : Bool) (st : String)
    (data : SessionBody) (hh : host ≠ "") (hu : u ≠ "") (hp : p ≠ "") :
    ((ok = false ∨ jsTruthyStr data.error = true) →
       createSession host u p (.response ok st (.ok data))
         = .error ("Failed to authenticate: " ++ jsOrStr data.error st)) ∧
    ((ok = true ∧ jsTruthyStr data.error = false) →
       createSession host u p (.response ok st (.ok data)) = .ok data.accessJwt) := by
  constructor
  · intro hcond
    rcases hcond with h | h <;>
      simp [createSession, hh, hu, hp, h]
  · rintro ⟨hok, herr⟩
    simp [createSession, hh, hu, hp, hok, herr]

/-- Witness for the amended claim C9: a non-success response with no error
field in the body fails with the HTTP status text in the message. -/
theorem createSession_spec_witness :
    createSession "https://bsky.social" "alice.test" "hunter2"
        (.response false "Unauthorized" (.ok (SessionBody.mk none none)))
      = .error "Failed to authenticate: Unauthorized" := by
  have h := (createSession_spec "https://bsky.social" "alice.test" "hunter2" false
    "Unauthorized" (SessionBody.mk none none) (by decide) (by decide) (by decide)).1
    (Or.inl rfl)
  simpa [jsOrStr] using h

/-- Claim C10: an explicit `limit = 0` is not preserved uniformly: the
get-author-posts dispatch replaces it by 10 and the search-posts client by 25
(falsy-or defaulting), while get-timeline forwards it unchanged as 0. -/
theorem limit_zero_not_uniform (c : BlueskyClient) (args : ToolArgs)
    (h : args.limit = some 0) :
    (∃ r, toolRequest c "bluesky_get_user_posts" args = some r ∧
       r.params.lookup "limit" = some "10") ∧
    (∃ r, toolRequest c "bluesky_search_posts" args = some r ∧
       r.params.lookup "limit" = some "25") ∧
    (∃ r, toolRequest c "bluesky_get_timeline" args = some r ∧
       r.params.lookup "limit" = some "0") := by
  refine ⟨⟨_, rfl, ?_⟩, ⟨_, rfl, ?_⟩, ⟨_, rfl, ?_⟩⟩
  · rw [getUserPosts_limit_param]
    simp [h, jsOrNum]
    rfl
  · rw [searchPosts_limit_param]
    simp [toSearchPostsArgs, h, jsOrNum]
    rfl
  · rw [getTimeline_limit_param]
    simp [h]
    rfl

/-- Witness for claim C10: the concrete argument object with `limit = 0`
produces limits 10, 25, and 0 on the three operations. -/
theorem limit_zero_not_uniform_witness :
    (∃ r, toolRequest clientDemo "bluesky_get_user_posts" { limit := some 0 } = some r ∧
       r.params.lookup "limit" = some "10") ∧
    (∃ r, toolRequest clientDemo "bluesky_search_posts" { limit := some 0 } = some r ∧
       r.params.lookup "limit" = some "25") ∧
    (∃ r, toolRequest clientDemo "bluesky_get_timeline" { limit := some 0 } = some r ∧
       r.params.lookup "limit" = some "0") :=
  limit_zero_not_uniform clientDemo { limit := some 0 } rfl
